import Mathlib

/-!
# Verification of the Async Job Lifecycle Client (FindAll handler)

Shallow embedding of `src/tools/web_search/parallel_web_systems/handlers/findall_handler.py`.

Modelling conventions:
* Python JSON values are the inductive `JVal`; Python dicts are insertion-ordered
  association lists `List (String × JVal)`.
* The HTTP transport (`requests`) is external: each method takes the outcome of its
  single HTTP call as a parameter — either an exception message (`Except.error`) or an
  `HttpResponse` carrying the status code, the raw text, and the outcome of
  `response.json()` (the stdlib JSON parse of the text).
* Python exceptions inside a `try` block are the `Except String` monad; the
  `except Exception as e` clause is `pyCatch`, which converts an exception into the
  failure envelope the source builds in each method.
* `time.time()` / `time.sleep` in `wait_for_completion` are idealised: HTTP calls take
  zero time and each `time.sleep(poll_interval)` advances the clock by `poll_interval`,
  so the while-condition at iteration `k` reads `k * poll_interval < max_wait`.
-/

/-- A Python/JSON value as manipulated by the handler. Objects are insertion-ordered
association lists, matching Python dict literals. -/
inductive JVal where
  | null : JVal
  | bool (b : Bool) : JVal
  | num (n : Int) : JVal
  | str (s : String) : JVal
  | arr (xs : List JVal) : JVal
  | obj (fields : List (String × JVal)) : JVal

/-- A Python dict returned by a handler method (insertion-ordered). -/
abbrev Envelope := List (String × JVal)

/-- First value bound to key `k`, or the default `d` — Python `dict.get(k, d)`. -/
def lookupD (fs : List (String × JVal)) (k : String) (d : JVal) : JVal :=
  match fs.find? (fun p => p.1 = k) with
  | some p => p.2
  | none => d

/-- Python `v.get(k, d)`: succeeds on a dict, raises `AttributeError` otherwise. -/
def JVal.pyGet (v : JVal) (k : String) (d : JVal) : Except String JVal :=
  match v with
  | .obj fs => .ok (lookupD fs k d)
  | _ => .error "AttributeError: object has no attribute get"

/-- Python truthiness of a JSON value (`if v:`). -/
def pyTruthy : JVal → Bool
  | .null => false
  | .bool b => b
  | .num n => n != 0
  | .str s => s ≠ ""
  | .arr xs => ¬ xs.isEmpty
  | .obj fs => ¬ fs.isEmpty

/-- Python `x or d` for an optional string argument (`generator or DEFAULT_GENERATOR`):
the default is substituted for `None` and for the falsy empty string. -/
def pyOrStr (v : Option String) (d : String) : String :=
  match v with
  | some s => if s = "" then d else s
  | none => d

/-- Python `x or d` for an optional int argument (`match_limit or DEFAULT_MATCH_LIMIT`):
the default is substituted for `None` and for the falsy `0`. -/
def pyOrInt (v : Option Int) (d : Int) : Int :=
  match v with
  | some n => if n = 0 then d else n
  | none => d

/-- Outcome of one `requests` call: status code, raw `response.text`, and the outcome of
`response.json()` (stdlib JSON parsing of the text, supplied by the environment). -/
structure HttpResponse where
  status_code : Nat
  text : String
  jsonBody : Except String JVal

/-- The handler state: the injected `_snowflake` module, modelled by the outcome of
`get_generic_secret_string("api_key")` when the module is present. -/
structure FindAllHandler where
  snowflake : Option (Except String String)

def BASE_URL : String := "https://api.parallel.ai"

def TIMEOUT : Nat := 120

def BETA_HEADER : String := "findall-2025-09-15"

def DEFAULT_GENERATOR : String := "core"

def DEFAULT_MATCH_LIMIT : Int := 10

/-- `FindAllHandler._get_api_key`: raises `RuntimeError("Snowflake module not initialized")`
when the module is absent, otherwise returns the secret-lookup outcome. -/
def getApiKey (h : FindAllHandler) : Except String String :=
  match h.snowflake with
  | none => .error "Snowflake module not initialized"
  | some r => r

/-- `FindAllHandler._get_headers`. -/
def getHeaders (h : FindAllHandler) : Except String (List (String × String)) := do
  let key ← getApiKey h
  pure [("x-api-key", key), ("Content-Type", "application/json"),
        ("parallel-beta", BETA_HEADER)]

/-- The error text `f"HTTP \x7bresponse.status_code\x7d: \x7bresponse.text\x7d"` used
for every non-200 response. -/
def httpErrMsg (code : Nat) (text : String) : String :=
  "HTTP " ++ toString code ++ ": " ++ text

/-- The failure envelope every method builds: `\x7b"success": False, "error": msg\x7d`
followed by the method's context field (`objective` for create, `findall_id` otherwise).
The `except` clause and the non-200 branch both produce this shape. -/
def exceptEnv (msg : String) (ctx : List (String × JVal)) : Envelope :=
  ("success", JVal.bool false) :: ("error", JVal.str msg) :: ctx

/-- `except Exception as e: return \x7b"success": False, "error": str(e), ...\x7d`. -/
def pyCatch (ctx : List (String × JVal)) (body : Except String Envelope) : Envelope :=
  match body with
  | .ok e => e
  | .error msg => exceptEnv msg ctx

/-- Common skeleton shared verbatim by all six methods of the source:
`try:` evaluate headers (api-key lookup may raise), perform the HTTP call (may raise),
then `if response.status_code == 200:` parse the body and build the success envelope,
`else:` return the `HTTP ...` failure envelope; `except` wraps any raise into the
failure envelope with the method's context field. -/
def apiOp (h : FindAllHandler) (ctx : List (String × JVal))
    (call : Except String HttpResponse)
    (onOk : JVal → Except String Envelope) : Envelope :=
  pyCatch ctx (do
    let _ ← getHeaders h
    let resp ← call
    if resp.status_code = 200 then do
      let result ← resp.jsonBody
      onOk result
    else
      pure (exceptEnv (httpErrMsg resp.status_code resp.text) ctx))

/-- Request payload built by `create_findall_run` (source lines 86–103): defaults are
substituted via Python `or` (so for any falsy argument), then `exclude_list` and
`metadata` are appended only when truthy. -/
def create_payload (objective entity_type : String) (match_conditions : JVal)
    (generator : Option String) (match_limit : Option Int)
    (exclude_list metadata : Option JVal) : List (String × JVal) :=
  let g := pyOrStr generator DEFAULT_GENERATOR
  let ml := pyOrInt match_limit DEFAULT_MATCH_LIMIT
  [("objective", JVal.str objective), ("entity_type", JVal.str entity_type),
   ("match_conditions", match_conditions), ("generator", JVal.str g),
   ("match_limit", JVal.num ml)]
  ++ (match exclude_list with
      | some v => if pyTruthy v then [("exclude_list", v)] else []
      | none => [])
  ++ (match metadata with
      | some v => if pyTruthy v then [("metadata", v)] else []
      | none => [])

/-- 200-branch of `create_findall_run`. -/
def create_ok_body (result : JVal) : Except String Envelope := do
  let fid ← result.pyGet "findall_id" JVal.null
  let st1 ← result.pyGet "status" (JVal.obj [])
  let st ← st1.pyGet "status" JVal.null
  let st2 ← result.pyGet "status" (JVal.obj [])
  let ia ← st2.pyGet "is_active" JVal.null
  let gen ← result.pyGet "generator" JVal.null
  let ca ← result.pyGet "created_at" JVal.null
  pure [("success", JVal.bool true), ("findall_id", fid), ("status", st),
        ("is_active", ia), ("generator", gen), ("created_at", ca)]

/-- `FindAllHandler.create_findall_run`. -/
def create_findall_run (h : FindAllHandler) (objective entity_type : String)
    (match_conditions : JVal) (generator : Option String) (match_limit : Option Int)
    (exclude_list metadata : Option JVal)
    (call : Except String HttpResponse) : Envelope :=
  let _payload := create_payload objective entity_type match_conditions generator
      match_limit exclude_list metadata
  apiOp h [("objective", JVal.str objective)] call create_ok_body

/-- 200-branch of `get_findall_status`. -/
def status_ok_body (findall_id : String) (result : JVal) : Except String Envelope := do
  let status_obj ← result.pyGet "status" (JVal.obj [])
  let st ← status_obj.pyGet "status" JVal.null
  let ia ← status_obj.pyGet "is_active" JVal.null
  let metrics ← status_obj.pyGet "metrics" (JVal.obj [])
  let ma ← result.pyGet "modified_at" JVal.null
  pure [("success", JVal.bool true), ("findall_id", JVal.str findall_id),
        ("status", st), ("is_active", ia), ("metrics", metrics), ("modified_at", ma)]

/-- `FindAllHandler.get_findall_status`. -/
def get_findall_status (h : FindAllHandler) (findall_id : String)
    (call : Except String HttpResponse) : Envelope :=
  apiOp h [("findall_id", JVal.str findall_id)] call (status_ok_body findall_id)

/-- Python `v == "matched"`: true exactly when the value is that string. -/
def isMatchedVal : JVal → Bool
  | .str s => s = "matched"
  | _ => false

/-- Python `c.get("match_status") == "matched"` as a Boolean predicate on a candidate
dict (false on a non-dict, where the source would raise instead — see `filterMatched`,
which is the faithful version; this one is the total predicate used in statements). -/
def isMatched (c : JVal) : Bool :=
  match c with
  | .obj cf => isMatchedVal (lookupD cf "match_status" JVal.null)
  | _ => false

/-- The comprehension `[c for c in candidates if c.get("match_status") == "matched"]`:
raises on the first non-dict element, otherwise keeps exactly the matched ones in order. -/
def filterMatched : List JVal → Except String (List JVal)
  | [] => .ok []
  | c :: cs => do
    let m ← c.pyGet "match_status" JVal.null
    let rest ← filterMatched cs
    if isMatchedVal m then pure (c :: rest) else pure rest

/-- Python iteration over the `candidates` value: a list yields its elements; any other
value is modelled as a raise (non-iterables raise `TypeError`; the API never returns a
string or dict here, whose element-wise `.get` would likewise raise on any element). -/
def asList (v : JVal) : Except String (List JVal) :=
  match v with
  | .arr xs => .ok xs
  | _ => .error "TypeError: object is not iterable"

/-- 200-branch of `get_findall_results`: extract `run` and `candidates`, filter to the
matched candidates, then build the success envelope in source order. -/
def results_ok_body (findall_id : String) (result : JVal) : Except String Envelope := do
  let run ← result.pyGet "run" (JVal.obj [])
  let candidates ← result.pyGet "candidates" (JVal.arr [])
  let cs ← asList candidates
  let matched ← filterMatched cs
  let rs1 ← run.pyGet "status" (JVal.obj [])
  let st ← rs1.pyGet "status" JVal.null
  let rs2 ← run.pyGet "status" (JVal.obj [])
  let ia ← rs2.pyGet "is_active" JVal.null
  pure [("success", JVal.bool true), ("findall_id", JVal.str findall_id),
        ("status", st), ("is_active", ia),
        ("total_candidates", JVal.num (cs.length : Int)),
        ("matched_count", JVal.num (matched.length : Int)),
        ("candidates", JVal.arr matched)]

/-- `FindAllHandler.get_findall_results`. -/
def get_findall_results (h : FindAllHandler) (findall_id : String)
    (call : Except String HttpResponse) : Envelope :=
  apiOp h [("findall_id", JVal.str findall_id)] call (results_ok_body findall_id)

/-- 200-branch of `extend_findall`. -/
def extend_ok_body (findall_id : String) (result : JVal) : Except String Envelope := do
  let nml ← result.pyGet "match_limit" JVal.null
  let ob ← result.pyGet "objective" JVal.null
  let et ← result.pyGet "entity_type" JVal.null
  pure [("success", JVal.bool true), ("findall_id", JVal.str findall_id),
        ("new_match_limit", nml), ("objective", ob), ("entity_type", et)]

/-- `FindAllHandler.extend_findall`. -/
def extend_findall (h : FindAllHandler) (findall_id : String)
    (additional_match_limit : Int) (call : Except String HttpResponse) : Envelope :=
  let _payload : List (String × JVal) :=
    [("additional_match_limit", JVal.num additional_match_limit)]
  apiOp h [("findall_id", JVal.str findall_id)] call (extend_ok_body findall_id)

/-- 200-branch of `enrich_findall`. -/
def enrich_ok_body (findall_id : String) (result : JVal) : Except String Envelope := do
  let en ← result.pyGet "enrichments" (JVal.arr [])
  let ob ← result.pyGet "objective" JVal.null
  pure [("success", JVal.bool true), ("findall_id", JVal.str findall_id),
        ("enrichments", en), ("objective", ob)]

/-- `FindAllHandler.enrich_findall`. -/
def enrich_findall (h : FindAllHandler) (findall_id : String) (output_schema : JVal)
    (processor : String) (call : Except String HttpResponse) : Envelope :=
  let _payload : List (String × JVal) :=
    [("processor", JVal.str processor), ("output_schema", output_schema)]
  apiOp h [("findall_id", JVal.str findall_id)] call (enrich_ok_body findall_id)

/-- 200-branch of `cancel_findall`. -/
def cancel_ok_body (findall_id : String) (result : JVal) : Except String Envelope := do
  let st1 ← result.pyGet "status" (JVal.obj [])
  let st ← st1.pyGet "status" JVal.null
  pure [("success", JVal.bool true), ("findall_id", JVal.str findall_id),
        ("status", st), ("message", JVal.str "FindAll run cancelled")]

/-- `FindAllHandler.cancel_findall`. -/
def cancel_findall (h : FindAllHandler) (findall_id : String)
    (call : Except String HttpResponse) : Envelope :=
  apiOp h [("findall_id", JVal.str findall_id)] call (cancel_ok_body findall_id)

/-- One remote request issued by the client, by endpoint. -/
inductive ApiCall where
  | createRun : ApiCall
  | status (findall_id : String) : ApiCall
  | results (findall_id : String) : ApiCall
  | extend (findall_id : String) : ApiCall
  | enrich (findall_id : String) : ApiCall
  | cancel (findall_id : String) : ApiCall
deriving DecidableEq, Repr

/-- The timeout envelope `wait_for_completion` returns when `max_wait` is exhausted. -/
def timeoutEnv (max_wait : Nat) (findall_id : String) : Envelope :=
  [("success", JVal.bool false),
   ("error", JVal.str ("Timeout after " ++ toString max_wait ++ " seconds")),
   ("findall_id", JVal.str findall_id)]

/-- Marker for the model artifact at `poll_interval = 0`, where the idealised clock
never advances and the source loop would spin forever; unreachable once
`1 ≤ poll_interval` (see the invariant `max_wait ≤ fuel + k` in the lemmas below). -/
def nonterminationEnv : Envelope := []

/-- The polling loop of `wait_for_completion`, with the iteration index `k` made
explicit (elapsed time is `k * poll_interval`) and structural fuel. Alongside the
returned envelope it records the trace of remote calls issued. -/
def waitBody (h : FindAllHandler) (findall_id : String)
    (statusCalls : Nat → Except String HttpResponse)
    (resultsCall : Except String HttpResponse)
    (poll_interval max_wait : Nat) : Nat → Nat → Envelope × List ApiCall
  | 0, k =>
    if k * poll_interval < max_wait then (nonterminationEnv, [])
    else (timeoutEnv max_wait findall_id, [])
  | fuel + 1, k =>
    if k * poll_interval < max_wait then
      let s := get_findall_status h findall_id (statusCalls k)
      if pyTruthy (lookupD s "success" JVal.null) = false then
        (s, [ApiCall.status findall_id])
      else if pyTruthy (lookupD s "is_active" JVal.null) = false then
        (get_findall_results h findall_id resultsCall,
         [ApiCall.status findall_id, ApiCall.results findall_id])
      else
        let r := waitBody h findall_id statusCalls resultsCall poll_interval max_wait
          fuel (k + 1)
        (r.1, ApiCall.status findall_id :: r.2)
    else (timeoutEnv max_wait findall_id, [])

/-- `FindAllHandler.wait_for_completion`: poll `get_findall_status`, return the failing
status envelope as-is, return `get_findall_results` once inactive, or the timeout
envelope once `max_wait` is exhausted. `statusCalls k` is the transport outcome of the
`k`-th poll; `resultsCall` that of the final results fetch. Fuel `max_wait + 1` covers
every reachable iteration when `poll_interval ≥ 1`. -/
def wait_for_completion (h : FindAllHandler) (findall_id : String)
    (statusCalls : Nat → Except String HttpResponse)
    (resultsCall : Except String HttpResponse)
    (poll_interval max_wait : Nat) : Envelope × List ApiCall :=
  waitBody h findall_id statusCalls resultsCall poll_interval max_wait (max_wait + 1) 0

/-- UDF entry point `enrich_findall` (module level): when the schema argument is a
Python `str` it is parsed with the stdlib `json.loads` **outside** any try/except —
the parse outcome on that string is supplied with it, and a parse exception propagates
to the caller. The final `json.dumps` serialisation of the returned mapping is
information-preserving and omitted. -/
def enrich_findall_udf (findall_id : String)
    (output_schema_json : Sum (String × Except String JVal) JVal)
    (processor : String) (h : FindAllHandler)
    (call : Except String HttpResponse) : Except String Envelope :=
  match output_schema_json with
  | .inl sp => do
    let schema ← sp.2
    pure (enrich_findall h findall_id schema processor call)
  | .inr v => pure (enrich_findall h findall_id v processor call)

/-- Field lookup in a returned envelope: `some v` when the key is present. -/
def envGet (e : Envelope) (k : String) : Option JVal :=
  (e.find? (fun p => p.1 = k)).map (fun p => p.2)

/-- The `k`-th status poll succeeded (`status.get("success")` truthy). -/
def pollSucc (h : FindAllHandler) (findall_id : String)
    (statusCalls : Nat → Except String HttpResponse) (i : Nat) : Bool :=
  pyTruthy (lookupD (get_findall_status h findall_id (statusCalls i)) "success" JVal.null)

/-- The `k`-th status poll reported the job still active. -/
def pollActive (h : FindAllHandler) (findall_id : String)
    (statusCalls : Nat → Except String HttpResponse) (i : Nat) : Bool :=
  pyTruthy (lookupD (get_findall_status h findall_id (statusCalls i)) "is_active" JVal.null)

/-- The `k`-th status poll succeeded and reported the job active (loop continues). -/
def pollOK (h : FindAllHandler) (findall_id : String)
    (statusCalls : Nat → Except String HttpResponse) (i : Nat) : Prop :=
  pollSucc h findall_id statusCalls i = true ∧ pollActive h findall_id statusCalls i = true

instance (h : FindAllHandler) (findall_id : String)
    (statusCalls : Nat → Except String HttpResponse) (i : Nat) :
    Decidable (pollOK h findall_id statusCalls i) :=
  inferInstanceAs (Decidable (_ ∧ _))

/-- A handler whose secret lookup succeeds, for concrete witnesses. -/
def handlerOK : FindAllHandler := ⟨some (.ok "test-key")⟩

/-- A 200 response body reporting a running, active job. -/
def activeBody : JVal :=
  JVal.obj [("status", JVal.obj [("status", JVal.str "running"),
                                 ("is_active", JVal.bool true),
                                 ("metrics", JVal.obj [])]),
            ("modified_at", JVal.str "t0")]

/-- A 200 response body reporting a completed, inactive job. -/
def doneBody : JVal :=
  JVal.obj [("status", JVal.obj [("status", JVal.str "completed"),
                                 ("is_active", JVal.bool false),
                                 ("metrics", JVal.obj [])]),
            ("modified_at", JVal.str "t1")]

/-- A successful transport outcome carrying `activeBody`. -/
def activeResp : Except String HttpResponse := .ok ⟨200, "", .ok activeBody⟩

/-- A successful transport outcome carrying `doneBody`. -/
def doneResp : Except String HttpResponse := .ok ⟨200, "", .ok doneBody⟩

/-- A stub 200 response with an empty-object body. -/
def respStub : HttpResponse := ⟨200, "", .ok (JVal.obj [])⟩

/-- Is the value a JSON object (Python dict)? -/
def JVal.isObj : JVal → Bool
  | .obj _ => true
  | _ => false

theorem exceptBind_ok {α β : Type} {e : Except String α} {g : α → Except String β}
    {v : β} : (e >>= g) = .ok v ↔ ∃ a, e = .ok a ∧ g a = .ok v := by
  cases e <;> simp [Bind.bind, Except.bind]

theorem apiOp_apikey_err (h : FindAllHandler) (ctx : List (String × JVal))
    (call : Except String HttpResponse) (f : JVal → Except String Envelope)
    (m : String) (hk : getApiKey h = .error m) :
    apiOp h ctx call f = exceptEnv m ctx := by
  simp [apiOp, getHeaders, pyCatch, hk, Bind.bind, Except.bind]

theorem apiOp_call_err (h : FindAllHandler) (ctx : List (String × JVal))
    (f : JVal → Except String Envelope) (key m : String)
    (hk : getApiKey h = .ok key) :
    apiOp h ctx (.error m) f = exceptEnv m ctx := by
  simp [apiOp, getHeaders, pyCatch, hk, Bind.bind, Except.bind, pure, Except.pure]

theorem apiOp_non200 (h : FindAllHandler) (ctx : List (String × JVal))
    (f : JVal → Except String Envelope) (key : String) (code : Nat) (text : String)
    (b : Except String JVal) (hk : getApiKey h = .ok key) (hc : code ≠ 200) :
    apiOp h ctx (.ok ⟨code, text, b⟩) f = exceptEnv (httpErrMsg code text) ctx := by
  simp [apiOp, getHeaders, pyCatch, hk, hc, Bind.bind, Except.bind, pure, Except.pure]

theorem apiOp_200 (h : FindAllHandler) (ctx : List (String × JVal))
    (f : JVal → Except String Envelope) (key text : String) (body : JVal)
    (hk : getApiKey h = .ok key) :
    apiOp h ctx (.ok ⟨200, text, .ok body⟩) f = pyCatch ctx (f body) := by
  simp [apiOp, getHeaders, hk, Bind.bind, Except.bind, pure, Except.pure]

theorem apiOp_200_badjson (h : FindAllHandler) (ctx : List (String × JVal))
    (f : JVal → Except String Envelope) (key text m : String)
    (hk : getApiKey h = .ok key) :
    apiOp h ctx (.ok ⟨200, text, .error m⟩) f = exceptEnv m ctx := by
  simp [apiOp, getHeaders, pyCatch, hk, Bind.bind, Except.bind, pure, Except.pure]

theorem apiOp_shape (h : FindAllHandler) (ctx : List (String × JVal))
    (call : Except String HttpResponse) (f : JVal → Except String Envelope)
    (hf : ∀ body env, f body = .ok env →
      ∃ rest, env = ("success", JVal.bool true) :: rest) :
    (∃ m, apiOp h ctx call f = exceptEnv m ctx) ∨
    (∃ rest, apiOp h ctx call f = ("success", JVal.bool true) :: rest) := by
  cases hA : getApiKey h with
  | error m => exact Or.inl ⟨m, apiOp_apikey_err h ctx call f m hA⟩
  | ok key =>
    cases call with
    | error m => exact Or.inl ⟨m, apiOp_call_err h ctx f key m hA⟩
    | ok resp =>
      obtain ⟨code, text, b⟩ := resp
      by_cases hc : code = 200
      · subst hc
        cases b with
        | error m => exact Or.inl ⟨m, apiOp_200_badjson h ctx f key text m hA⟩
        | ok body =>
          rw [apiOp_200 h ctx f key text body hA]
          cases hfb : f body with
          | error m => exact Or.inl ⟨m, by simp [pyCatch, hfb]⟩
          | ok env =>
            obtain ⟨rest, hrest⟩ := hf body env hfb
            exact Or.inr ⟨rest, by simp [pyCatch, hfb, hrest]⟩
      · exact Or.inl ⟨httpErrMsg code text, apiOp_non200 h ctx f key code text b hA hc⟩

theorem create_ok_body_shape : ∀ body env, create_ok_body body = .ok env →
    ∃ rest, env = ("success", JVal.bool true) :: rest := by
  intro body env h
  simp only [create_ok_body, exceptBind_ok] at h
  obtain ⟨a, _, b, _, c, _, d, _, e, _, f, _, g, _, h⟩ := h
  simp only [pure, Except.pure, Except.ok.injEq] at h
  exact ⟨_, h.symm⟩

theorem status_ok_body_shape (id : String) : ∀ body env,
    status_ok_body id body = .ok env →
    ∃ rest, env = ("success", JVal.bool true) :: rest := by
  intro body env h
  simp only [status_ok_body, exceptBind_ok] at h
  obtain ⟨a, _, b, _, c, _, d, _, e, _, h⟩ := h
  simp only [pure, Except.pure, Except.ok.injEq] at h
  exact ⟨_, h.symm⟩

theorem results_ok_body_shape (id : String) : ∀ body env,
    results_ok_body id body = .ok env →
    ∃ rest, env = ("success", JVal.bool true) :: rest := by
  intro body env h
  simp only [results_ok_body, exceptBind_ok] at h
  obtain ⟨a, _, b, _, c, _, d, _, e, _, f, _, g, _, i, _, h⟩ := h
  simp only [pure, Except.pure, Except.ok.injEq] at h
  exact ⟨_, h.symm⟩

theorem extend_ok_body_shape (id : String) : ∀ body env,
    extend_ok_body id body = .ok env →
    ∃ rest, env = ("success", JVal.bool true) :: rest := by
  intro body env h
  simp only [extend_ok_body, exceptBind_ok] at h
  obtain ⟨a, _, b, _, c, _, h⟩ := h
  simp only [pure, Except.pure, Except.ok.injEq] at h
  exact ⟨_, h.symm⟩

theorem enrich_ok_body_shape (id : String) : ∀ body env,
    enrich_ok_body id body = .ok env →
    ∃ rest, env = ("success", JVal.bool true) :: rest := by
  intro body env h
  simp only [enrich_ok_body, exceptBind_ok] at h
  obtain ⟨a, _, b, _, h⟩ := h
  simp only [pure, Except.pure, Except.ok.injEq] at h
  exact ⟨_, h.symm⟩

theorem cancel_ok_body_shape (id : String) : ∀ body env,
    cancel_ok_body id body = .ok env →
    ∃ rest, env = ("success", JVal.bool true) :: rest := by
  intro body env h
  simp only [cancel_ok_body, exceptBind_ok] at h
  obtain ⟨a, _, b, _, h⟩ := h
  simp only [pure, Except.pure, Except.ok.injEq] at h
  exact ⟨_, h.symm⟩

theorem filterMatched_eq (cs : List JVal) (hobj : ∀ c ∈ cs, c.isObj = true) :
    filterMatched cs = .ok (cs.filter isMatched) := by
  induction cs with
  | nil => simp [filterMatched]
  | cons c cs ih =>
    have hc : c.isObj = true := hobj c (List.mem_cons_self c cs)
    have ihc := ih (fun x hx => hobj x (List.mem_cons_of_mem c hx))
    cases c with
    | obj cf =>
      by_cases hm : isMatchedVal (lookupD cf "match_status" JVal.null) = true
      · simp [filterMatched, JVal.pyGet, ihc, Bind.bind, Except.bind, pure,
          Except.pure, List.filter_cons, isMatched, hm]
      · simp only [Bool.not_eq_true] at hm
        simp [filterMatched, JVal.pyGet, ihc, Bind.bind, Except.bind, pure,
          Except.pure, List.filter_cons, isMatched, hm]
    | null => simp [JVal.isObj] at hc
    | bool b => simp [JVal.isObj] at hc
    | num n => simp [JVal.isObj] at hc
    | str s => simp [JVal.isObj] at hc
    | arr xs => simp [JVal.isObj] at hc

theorem create_ok_eval (fs ss : List (String × JVal))
    (hs : lookupD fs "status" (JVal.obj []) = JVal.obj ss) :
    create_ok_body (JVal.obj fs) =
      .ok [("success", JVal.bool true),
           ("findall_id", lookupD fs "findall_id" JVal.null),
           ("status", lookupD ss "status" JVal.null),
           ("is_active", lookupD ss "is_active" JVal.null),
           ("generator", lookupD fs "generator" JVal.null),
           ("created_at", lookupD fs "created_at" JVal.null)] := by
  simp [create_ok_body, JVal.pyGet, hs, Bind.bind, Except.bind, pure, Except.pure]

theorem status_ok_eval (id : String) (fs ss : List (String × JVal))
    (hs : lookupD fs "status" (JVal.obj []) = JVal.obj ss) :
    status_ok_body id (JVal.obj fs) =
      .ok [("success", JVal.bool true), ("findall_id", JVal.str id),
           ("status", lookupD ss "status" JVal.null),
           ("is_active", lookupD ss "is_active" JVal.null),
           ("metrics", lookupD ss "metrics" (JVal.obj [])),
           ("modified_at", lookupD fs "modified_at" JVal.null)] := by
  simp [status_ok_body, JVal.pyGet, hs, Bind.bind, Except.bind, pure, Except.pure]

theorem results_ok_eval (id : String) (fs rs rss : List (String × JVal))
    (cs : List JVal)
    (hrun : lookupD fs "run" (JVal.obj []) = JVal.obj rs)
    (hrs : lookupD rs "status" (JVal.obj []) = JVal.obj rss)
    (hcs : lookupD fs "candidates" (JVal.arr []) = JVal.arr cs)
    (hobj : ∀ c ∈ cs, c.isObj = true) :
    results_ok_body id (JVal.obj fs) =
      .ok [("success", JVal.bool true), ("findall_id", JVal.str id),
           ("status", lookupD rss "status" JVal.null),
           ("is_active", lookupD rss "is_active" JVal.null),
           ("total_candidates", JVal.num (cs.length : Int)),
           ("matched_count", JVal.num ((cs.filter isMatched).length : Int)),
           ("candidates", JVal.arr (cs.filter isMatched))] := by
  simp [results_ok_body, JVal.pyGet, hrun, hrs, hcs, asList, filterMatched_eq cs hobj,
    Bind.bind, Except.bind, pure, Except.pure]

theorem extend_ok_eval (id : String) (fs : List (String × JVal)) :
    extend_ok_body id (JVal.obj fs) =
      .ok [("success", JVal.bool true), ("findall_id", JVal.str id),
           ("new_match_limit", lookupD fs "match_limit" JVal.null),
           ("objective", lookupD fs "objective" JVal.null),
           ("entity_type", lookupD fs "entity_type" JVal.null)] := by
  simp [extend_ok_body, JVal.pyGet, Bind.bind, Except.bind, pure, Except.pure]

theorem enrich_ok_eval (id : String) (fs : List (String × JVal)) :
    enrich_ok_body id (JVal.obj fs) =
      .ok [("success", JVal.bool true), ("findall_id", JVal.str id),
           ("enrichments", lookupD fs "enrichments" (JVal.arr [])),
           ("objective", lookupD fs "objective" JVal.null)] := by
  simp [enrich_ok_body, JVal.pyGet, Bind.bind, Except.bind, pure, Except.pure]

theorem cancel_ok_eval (id : String) (fs ss : List (String × JVal))
    (hs : lookupD fs "status" (JVal.obj []) = JVal.obj ss) :
    cancel_ok_body id (JVal.obj fs) =
      .ok [("success", JVal.bool true), ("findall_id", JVal.str id),
           ("status", lookupD ss "status" JVal.null),
           ("message", JVal.str "FindAll run cancelled")] := by
  simp [cancel_ok_body, JVal.pyGet, hs, Bind.bind, Except.bind, pure, Except.pure]

theorem waitBody_zero_step (h : FindAllHandler) (id : String)
    (calls : Nat → Except String HttpResponse) (resCall : Except String HttpResponse)
    (pi mw k : Nat) :
    waitBody h id calls resCall pi mw 0 k =
      if k * pi < mw then (nonterminationEnv, []) else (timeoutEnv mw id, []) := rfl

theorem waitBody_succ_step (h : FindAllHandler) (id : String)
    (calls : Nat → Except String HttpResponse) (resCall : Except String HttpResponse)
    (pi mw fuel k : Nat) :
    waitBody h id calls resCall pi mw (fuel + 1) k =
      if k * pi < mw then
        (if pollSucc h id calls k = false then
          (get_findall_status h id (calls k), [ApiCall.status id])
         else if pollActive h id calls k = false then
          (get_findall_results h id resCall,
           [ApiCall.status id, ApiCall.results id])
         else
          ((waitBody h id calls resCall pi mw fuel (k + 1)).1,
           ApiCall.status id :: (waitBody h id calls resCall pi mw fuel (k + 1)).2))
      else (timeoutEnv mw id, []) := rfl

theorem waitBody_first_inactive (h : FindAllHandler) (id : String)
    (calls : Nat → Except String HttpResponse) (resCall : Except String HttpResponse)
    (pi mw : Nat) (hpi : 1 ≤ pi) :
    ∀ fuel k j, mw ≤ fuel + k → k ≤ j → j * pi < mw →
    (∀ i, k ≤ i → i < j → pollOK h id calls i) →
    pollSucc h id calls j = true → pollActive h id calls j = false →
    waitBody h id calls resCall pi mw fuel k =
      (get_findall_results h id resCall,
       List.replicate (j + 1 - k) (ApiCall.status id) ++ [ApiCall.results id]) := by
  intro fuel
  induction fuel with
  | zero =>
    intro k j hfk hkj hj hpre hsucc hact
    exfalso
    have h1 : j ≤ j * pi := Nat.le_mul_of_pos_right j (by omega)
    omega
  | succ fuel ih =>
    intro k j hfk hkj hj hpre hsucc hact
    have hcond : k * pi < mw := lt_of_le_of_lt (Nat.mul_le_mul_right pi hkj) hj
    rw [waitBody_succ_step, if_pos hcond]
    rcases Nat.eq_or_lt_of_le hkj with rfl | hlt
    · rw [if_neg (by simp [hsucc]), if_pos hact]
      simp
    · obtain ⟨hs, ha⟩ := hpre k (le_refl k) hlt
      rw [if_neg (by simp [hs]), if_neg (by simp [ha])]
      rw [ih (k + 1) j (by omega) (by omega) hj
        (fun i hi hij => hpre i (by omega) hij) hsucc hact]
      have hrep : j + 1 - k = (j + 1 - (k + 1)) + 1 := by omega
      rw [hrep, List.replicate_succ]
      simp

theorem waitBody_first_failure (h : FindAllHandler) (id : String)
    (calls : Nat → Except String HttpResponse) (resCall : Except String HttpResponse)
    (pi mw : Nat) (hpi : 1 ≤ pi) :
    ∀ fuel k j, mw ≤ fuel + k → k ≤ j → j * pi < mw →
    (∀ i, k ≤ i → i < j → pollOK h id calls i) →
    pollSucc h id calls j = false →
    waitBody h id calls resCall pi mw fuel k =
      (get_findall_status h id (calls j),
       List.replicate (j + 1 - k) (ApiCall.status id)) := by
  intro fuel
  induction fuel with
  | zero =>
    intro k j hfk hkj hj hpre hfail
    exfalso
    have h1 : j ≤ j * pi := Nat.le_mul_of_pos_right j (by omega)
    omega
  | succ fuel ih =>
    intro k j hfk hkj hj hpre hfail
    have hcond : k * pi < mw := lt_of_le_of_lt (Nat.mul_le_mul_right pi hkj) hj
    rw [waitBody_succ_step, if_pos hcond]
    rcases Nat.eq_or_lt_of_le hkj with rfl | hlt
    · rw [if_pos hfail]
      simp
    · obtain ⟨hs, ha⟩ := hpre k (le_refl k) hlt
      rw [if_neg (by simp [hs]), if_neg (by simp [ha])]
      rw [ih (k + 1) j (by omega) (by omega) hj
        (fun i hi hij => hpre i (by omega) hij) hfail]
      have hrep : j + 1 - k = (j + 1 - (k + 1)) + 1 := by omega
      rw [hrep, List.replicate_succ]

theorem waitBody_timeout (h : FindAllHandler) (id : String)
    (calls : Nat → Except String HttpResponse) (resCall : Except String HttpResponse)
    (pi mw : Nat) (hpi : 1 ≤ pi) :
    ∀ fuel k, mw ≤ fuel + k →
    (∀ i, k ≤ i → i * pi < mw → pollOK h id calls i) →
    (waitBody h id calls resCall pi mw fuel k).1 = timeoutEnv mw id := by
  intro fuel
  induction fuel with
  | zero =>
    intro k hfk hpre
    rw [waitBody_zero_step, if_neg]
    intro hcond
    have h1 : k ≤ k * pi := Nat.le_mul_of_pos_right k (by omega)
    omega
  | succ fuel ih =>
    intro k hfk hpre
    rw [waitBody_succ_step]
    by_cases hcond : k * pi < mw
    · obtain ⟨hs, ha⟩ := hpre k (le_refl k) hcond
      rw [if_pos hcond, if_neg (by simp [hs]), if_neg (by simp [ha])]
      exact ih (k + 1) (by omega) (fun i hi hic => hpre i (by omega) hic)
    · rw [if_neg hcond]

theorem waitBody_trace_shape (h : FindAllHandler) (id : String)
    (calls : Nat → Except String HttpResponse) (resCall : Except String HttpResponse)
    (pi mw : Nat) :
    ∀ fuel k, ∃ n,
      (waitBody h id calls resCall pi mw fuel k).2 =
        List.replicate n (ApiCall.status id) ∨
      (waitBody h id calls resCall pi mw fuel k).2 =
        List.replicate n (ApiCall.status id) ++ [ApiCall.results id] := by
  intro fuel
  induction fuel with
  | zero =>
    intro k
    rw [waitBody_zero_step]
    by_cases hcond : k * pi < mw
    · exact ⟨0, Or.inl (by rw [if_pos hcond]; rfl)⟩
    · exact ⟨0, Or.inl (by rw [if_neg hcond]; rfl)⟩

  | succ fuel ih =>
    intro k
    rw [waitBody_succ_step]
    by_cases hcond : k * pi < mw
    · rw [if_pos hcond]
      by_cases hs : pollSucc h id calls k = false
      · exact ⟨1, Or.inl (by rw [if_pos hs]; simp)⟩
      · by_cases ha : pollActive h id calls k = false
        · refine ⟨1, Or.inr ?_⟩
          rw [if_neg hs, if_pos ha]
          simp
        · obtain ⟨n, hn | hn⟩ := ih (k + 1)
          · exact ⟨n + 1, Or.inl (by rw [if_neg hs, if_neg ha]; simp [hn, List.replicate_succ])⟩
          · exact ⟨n + 1, Or.inr (by rw [if_neg hs, if_neg ha]; simp [hn, List.replicate_succ])⟩
    · exact ⟨0, Or.inl (by rw [if_neg hcond]; rfl)⟩

/-- A sequence of status-poll transport outcomes that reports the job active on the
first poll and completed from the second poll on. -/
def flipCalls : Nat → Except String HttpResponse :=
  fun k => if k = 0 then activeResp else doneResp

/-- Claim C1: for every job id and every positive `poll_interval` and `max_wait`,
`wait_for_completion` repeatedly calls `get_status` with `poll_interval` seconds of
elapsed time between checks; at the first successful poll whose snapshot has
`is_active` false it stops and returns exactly the value of `get_results(job_id)`;
if the elapsed time reaches `max_wait` before any such poll (every poll in the window
succeeding and active), it returns the timeout failure envelope (`success = false`). -/
theorem wait_for_completion_correct (h : FindAllHandler) (findall_id : String)
    (statusCalls : Nat → Except String HttpResponse)
    (resultsCall : Except String HttpResponse)
    (poll_interval max_wait : Nat)
    (hpi : 1 ≤ poll_interval) (_hmw : 1 ≤ max_wait) :
    (∀ j, j * poll_interval < max_wait →
      (∀ i, i < j → pollOK h findall_id statusCalls i) →
      pollSucc h findall_id statusCalls j = true →
      pollActive h findall_id statusCalls j = false →
      (wait_for_completion h findall_id statusCalls resultsCall
        poll_interval max_wait).1 = get_findall_results h findall_id resultsCall) ∧
    ((∀ i, i * poll_interval < max_wait → pollOK h findall_id statusCalls i) →
      (wait_for_completion h findall_id statusCalls resultsCall
        poll_interval max_wait).1 = timeoutEnv max_wait findall_id) := by
  constructor
  · intro j hj hpre hsucc hact
    rw [wait_for_completion, waitBody_first_inactive h findall_id statusCalls
      resultsCall poll_interval max_wait hpi (max_wait + 1) 0 j (by omega) (by omega)
      hj (fun i _ hij => hpre i hij) hsucc hact]
  · intro hpre
    exact waitBody_timeout h findall_id statusCalls resultsCall poll_interval max_wait
      hpi (max_wait + 1) 0 (by omega) (fun i _ hic => hpre i hic)

/-- Witness for C1: with a job that turns inactive at the second poll the loop returns
`get_results`; with a job that stays active it returns the timeout envelope. -/
theorem wait_for_completion_correct_witness :
    (wait_for_completion handlerOK "j1" flipCalls doneResp 1 3).1 =
      get_findall_results handlerOK "j1" doneResp ∧
    (wait_for_completion handlerOK "j1" (fun _ => activeResp) doneResp 1 2).1 =
      timeoutEnv 2 "j1" := by
  constructor
  · exact (wait_for_completion_correct handlerOK "j1" flipCalls doneResp 1 3
      (by decide) (by decide)).1 1 (by decide) (by decide) rfl rfl
  · exact (wait_for_completion_correct handlerOK "j1" (fun _ => activeResp) doneResp
      1 2 (by decide) (by decide)).2 (fun i _ => ⟨rfl, rfl⟩)

/-- Claim C4: if a `get_status` poll returns a failure envelope, `wait_for_completion`
immediately returns that same envelope; the trace of `j + 1` status calls shows it
neither retried the poll nor issued any further request. -/
theorem wait_for_completion_propagates_failure (h : FindAllHandler)
    (findall_id : String) (statusCalls : Nat → Except String HttpResponse)
    (resultsCall : Except String HttpResponse) (poll_interval max_wait j : Nat)
    (hpi : 1 ≤ poll_interval) (hj : j * poll_interval < max_wait)
    (hpre : ∀ i, i < j → pollOK h findall_id statusCalls i)
    (hfail : pollSucc h findall_id statusCalls j = false) :
    wait_for_completion h findall_id statusCalls resultsCall poll_interval max_wait =
      (get_findall_status h findall_id (statusCalls j),
       List.replicate (j + 1) (ApiCall.status findall_id)) := by
  rw [wait_for_completion, waitBody_first_failure h findall_id statusCalls resultsCall
    poll_interval max_wait hpi (max_wait + 1) 0 j (by omega) (by omega) hj
    (fun i _ hij => hpre i hij) hfail]
  simp

/-- Witness for C4: a transport exception on the first poll is returned unchanged
after exactly one status request. -/
theorem wait_for_completion_propagates_failure_witness :
    wait_for_completion handlerOK "j1" (fun _ => Except.error "boom") doneResp 1 5 =
      (get_findall_status handlerOK "j1" (Except.error "boom"),
       List.replicate 1 (ApiCall.status "j1")) :=
  wait_for_completion_propagates_failure handlerOK "j1" (fun _ => Except.error "boom")
    doneResp 1 5 0 (by decide) (by decide) (fun i hi => absurd hi (by omega)) rfl

/-- Claim C5: `wait_for_completion` never issues a cancel (nor create/extend/enrich)
request: its call trace consists of status polls followed by at most one final
results fetch, so a timeout leaves the remote job untouched. -/
theorem wait_for_completion_trace_only_polls (h : FindAllHandler)
    (findall_id : String) (statusCalls : Nat → Except String HttpResponse)
    (resultsCall : Except String HttpResponse) (poll_interval max_wait : Nat) :
    (∃ n, (wait_for_completion h findall_id statusCalls resultsCall
            poll_interval max_wait).2 =
          List.replicate n (ApiCall.status findall_id) ∨
          (wait_for_completion h findall_id statusCalls resultsCall
            poll_interval max_wait).2 =
          List.replicate n (ApiCall.status findall_id) ++
            [ApiCall.results findall_id]) ∧
    ApiCall.cancel findall_id ∉
      (wait_for_completion h findall_id statusCalls resultsCall
        poll_interval max_wait).2 ∧
    ∀ c ∈ (wait_for_completion h findall_id statusCalls resultsCall
        poll_interval max_wait).2,
      c = ApiCall.status findall_id ∨ c = ApiCall.results findall_id := by
  obtain ⟨n, hn⟩ := waitBody_trace_shape h findall_id statusCalls resultsCall
    poll_interval max_wait (max_wait + 1) 0
  refine ⟨⟨n, hn⟩, ?_, ?_⟩
  · rcases hn with hn | hn <;> rw [wait_for_completion, hn] <;>
      simp [List.mem_replicate, List.mem_append]
  · intro c hc
    rcases hn with hn | hn <;> rw [wait_for_completion, hn] at hc <;>
      simp [List.mem_replicate, List.mem_append] at hc
    · exact Or.inl hc.2
    · rcases hc with hc | hc
      · exact Or.inl hc.2
      · exact Or.inr hc

/-- Claim C2: for every job id and every 200-status response whose body is a JSON
object with a candidate list of objects, `get_findall_results` returns a success
envelope whose `candidates` field is exactly the subsequence of the response's
candidates with `match_status = "matched"` (order preserved), whose `matched_count` is
the length of that subsequence, and whose `total_candidates` is the length of the full
unfiltered list; hence `matched_count ≤ total_candidates`. -/
theorem get_findall_results_filters_matched (h : FindAllHandler) (key : String)
    (hk : getApiKey h = .ok key) (findall_id text : String)
    (fs rs rss : List (String × JVal)) (cs : List JVal)
    (hrun : lookupD fs "run" (JVal.obj []) = JVal.obj rs)
    (hrs : lookupD rs "status" (JVal.obj []) = JVal.obj rss)
    (hcs : lookupD fs "candidates" (JVal.arr []) = JVal.arr cs)
    (hobj : ∀ c ∈ cs, c.isObj = true) :
    get_findall_results h findall_id (.ok ⟨200, text, .ok (JVal.obj fs)⟩) =
      [("success", JVal.bool true), ("findall_id", JVal.str findall_id),
       ("status", lookupD rss "status" JVal.null),
       ("is_active", lookupD rss "is_active" JVal.null),
       ("total_candidates", JVal.num (cs.length : Int)),
       ("matched_count", JVal.num ((cs.filter isMatched).length : Int)),
       ("candidates", JVal.arr (cs.filter isMatched))] ∧
    (cs.filter isMatched).length ≤ cs.length := by
  constructor
  · rw [get_findall_results, apiOp_200 h _ _ key text _ hk,
      results_ok_eval findall_id fs rs rss cs hrun hrs hcs hobj]
    rfl
  · exact List.length_filter_le isMatched cs

/-- Witness for C2: a body with one matched and one rejected candidate yields exactly
the matched one, `matched_count = 1`, `total_candidates = 2`. -/
theorem get_findall_results_filters_matched_witness :
    get_findall_results handlerOK "j1"
      (.ok ⟨200, "",
        .ok (JVal.obj
          [("run", JVal.obj [("status", JVal.obj [("status", JVal.str "completed"),
                                                  ("is_active", JVal.bool false)])]),
           ("candidates",
            JVal.arr [JVal.obj [("name", JVal.str "a"),
                                ("match_status", JVal.str "matched")],
                      JVal.obj [("name", JVal.str "b"),
                                ("match_status", JVal.str "rejected")]])])⟩) =
      [("success", JVal.bool true), ("findall_id", JVal.str "j1"),
       ("status", JVal.str "completed"), ("is_active", JVal.bool false),
       ("total_candidates", JVal.num 2), ("matched_count", JVal.num 1),
       ("candidates", JVal.arr [JVal.obj [("name", JVal.str "a"),
                                          ("match_status", JVal.str "matched")]])] ∧
    (1 : Nat) ≤ 2 := by
  have := get_findall_results_filters_matched handlerOK "test-key" rfl "j1" ""
    [("run", JVal.obj [("status", JVal.obj [("status", JVal.str "completed"),
                                            ("is_active", JVal.bool false)])]),
     ("candidates",
      JVal.arr [JVal.obj [("name", JVal.str "a"),
                          ("match_status", JVal.str "matched")],
                JVal.obj [("name", JVal.str "b"),
                          ("match_status", JVal.str "rejected")]])]
    [("status", JVal.obj [("status", JVal.str "completed"),
                          ("is_active", JVal.bool false)])]
    [("status", JVal.str "completed"), ("is_active", JVal.bool false)]
    [JVal.obj [("name", JVal.str "a"), ("match_status", JVal.str "matched")],
     JVal.obj [("name", JVal.str "b"), ("match_status", JVal.str "rejected")]]
    rfl rfl rfl (by intro c hc; fin_cases hc <;> rfl)
  exact ⟨this.1.trans (by rfl), by omega⟩

theorem create_findall_run_def (h : FindAllHandler) (o e : String) (mc : JVal)
    (g : Option String) (ml : Option Int) (ex md : Option JVal)
    (call : Except String HttpResponse) :
    create_findall_run h o e mc g ml ex md call =
      apiOp h [("objective", JVal.str o)] call create_ok_body := rfl

theorem get_findall_status_def (h : FindAllHandler) (id : String)
    (call : Except String HttpResponse) :
    get_findall_status h id call =
      apiOp h [("findall_id", JVal.str id)] call (status_ok_body id) := rfl

theorem get_findall_results_def (h : FindAllHandler) (id : String)
    (call : Except String HttpResponse) :
    get_findall_results h id call =
      apiOp h [("findall_id", JVal.str id)] call (results_ok_body id) := rfl

theorem extend_findall_def (h : FindAllHandler) (id : String) (aml : Int)
    (call : Except String HttpResponse) :
    extend_findall h id aml call =
      apiOp h [("findall_id", JVal.str id)] call (extend_ok_body id) := rfl

theorem enrich_findall_def (h : FindAllHandler) (id : String) (schema : JVal)
    (processor : String) (call : Except String HttpResponse) :
    enrich_findall h id schema processor call =
      apiOp h [("findall_id", JVal.str id)] call (enrich_ok_body id) := rfl

theorem cancel_findall_def (h : FindAllHandler) (id : String)
    (call : Except String HttpResponse) :
    cancel_findall h id call =
      apiOp h [("findall_id", JVal.str id)] call (cancel_ok_body id) := rfl

theorem env_fields_of_shape (e : Envelope) (k : String) (v : JVal)
    (hshape : (∃ m, e = exceptEnv m [(k, v)]) ∨
      (∃ rest, e = ("success", JVal.bool true) :: rest))
    (hk1 : k ≠ "success") (hk2 : k ≠ "error") :
    (∃ b, envGet e "success" = some (JVal.bool b)) ∧
    (envGet e "success" = some (JVal.bool false) →
      ∃ msg, envGet e "error" = some (JVal.str msg)) ∧
    (envGet e "success" = some (JVal.bool false) → envGet e k = some v) := by
  rcases hshape with ⟨m, rfl⟩ | ⟨rest, rfl⟩
  · refine ⟨⟨false, ?_⟩, fun _ => ⟨m, ?_⟩, fun _ => ?_⟩ <;>
      simp [envGet, exceptEnv, List.find?, Ne.symm hk1, Ne.symm hk2]
  · refine ⟨⟨true, ?_⟩, fun hfalse => ?_, fun hfalse => ?_⟩
    · simp [envGet, List.find?]
    · simp [envGet, List.find?] at hfalse
    · simp [envGet, List.find?] at hfalse

/-- Claim C10: `create_findall_run` substitutes the defaults for any falsy argument:
`match_limit = 0` sends `match_limit 10` and `generator = ""` sends `"core"`, while
every truthy (non-zero) `match_limit` value is carried unchanged in the payload — in
particular values outside the `[5, 1000]` range, since there is no client-side check. -/
theorem create_payload_falsy_defaults (o e : String) (mc : JVal)
    (ex md : Option JVal) :
    lookupD (create_payload o e mc (some "") (some 0) ex md) "match_limit" JVal.null =
      JVal.num 10 ∧
    lookupD (create_payload o e mc (some "") (some 0) ex md) "generator" JVal.null =
      JVal.str "core" ∧
    ∀ (n : Int) (g : Option String), n ≠ 0 →
      lookupD (create_payload o e mc g (some n) ex md) "match_limit" JVal.null =
        JVal.num n := by
  refine ⟨?_, ?_, fun n g hn => ?_⟩
  · simp [create_payload, lookupD, List.find?, pyOrInt, pyOrStr,
      DEFAULT_MATCH_LIMIT, DEFAULT_GENERATOR]
  · simp [create_payload, lookupD, List.find?, pyOrInt, pyOrStr,
      DEFAULT_MATCH_LIMIT, DEFAULT_GENERATOR]
  · simp [create_payload, lookupD, List.find?, pyOrInt, pyOrStr,
      DEFAULT_MATCH_LIMIT, DEFAULT_GENERATOR, hn]

/-- Witness for C10: `match_limit = 0` yields payload value 10, `generator = ""`
yields `"core"`, and the out-of-range `match_limit = 2000` is sent unchanged. -/
theorem create_payload_falsy_defaults_witness :
    lookupD (create_payload "find labs" "companies" (JVal.arr []) (some "") (some 0)
      none none) "match_limit" JVal.null = JVal.num 10 ∧
    lookupD (create_payload "find labs" "companies" (JVal.arr []) (some "") (some 0)
      none none) "generator" JVal.null = JVal.str "core" ∧
    lookupD (create_payload "find labs" "companies" (JVal.arr []) none (some 2000)
      none none) "match_limit" JVal.null = JVal.num 2000 :=
  ⟨(create_payload_falsy_defaults "find labs" "companies" (JVal.arr []) none none).1,
   (create_payload_falsy_defaults "find labs" "companies" (JVal.arr []) none none).2.1,
   (create_payload_falsy_defaults "find labs" "companies" (JVal.arr []) none none).2.2
     2000 none (by decide)⟩

/-- Claim C9: every public handler method returns a dict with a boolean `success`
field and never propagates an exception: an exception raised during secret lookup
(including the `RuntimeError` when the snowflake module is absent) or during the HTTP
call is converted into the failure envelope `\x7bsuccess: false, error: str(e), ...\x7d`
with the method's context field. -/
theorem handler_methods_never_raise (h : FindAllHandler) (m key : String)
    (objective entity_type findall_id processor : String) (mc schema : JVal)
    (g : Option String) (ml : Option Int) (ex md : Option JVal) (aml : Int)
    (call : Except String HttpResponse) :
    (h.snowflake = none → getApiKey h = .error "Snowflake module not initialized") ∧
    ((∃ b, envGet (create_findall_run h objective entity_type mc g ml ex md call)
        "success" = some (JVal.bool b)) ∧
     (getApiKey h = .error m → create_findall_run h objective entity_type mc g ml ex md
        call = exceptEnv m [("objective", JVal.str objective)]) ∧
     (getApiKey h = .ok key → create_findall_run h objective entity_type mc g ml ex md
        (.error m) = exceptEnv m [("objective", JVal.str objective)])) ∧
    ((∃ b, envGet (get_findall_status h findall_id call) "success" =
        some (JVal.bool b)) ∧
     (getApiKey h = .error m → get_findall_status h findall_id call =
        exceptEnv m [("findall_id", JVal.str findall_id)]) ∧
     (getApiKey h = .ok key → get_findall_status h findall_id (.error m) =
        exceptEnv m [("findall_id", JVal.str findall_id)])) ∧
    ((∃ b, envGet (get_findall_results h findall_id call) "success" =
        some (JVal.bool b)) ∧
     (getApiKey h = .error m → get_findall_results h findall_id call =
        exceptEnv m [("findall_id", JVal.str findall_id)]) ∧
     (getApiKey h = .ok key → get_findall_results h findall_id (.error m) =
        exceptEnv m [("findall_id", JVal.str findall_id)])) ∧
    ((∃ b, envGet (extend_findall h findall_id aml call) "success" =
        some (JVal.bool b)) ∧
     (getApiKey h = .error m → extend_findall h findall_id aml call =
        exceptEnv m [("findall_id", JVal.str findall_id)]) ∧
     (getApiKey h = .ok key → extend_findall h findall_id aml (.error m) =
        exceptEnv m [("findall_id", JVal.str findall_id)])) ∧
    ((∃ b, envGet (enrich_findall h findall_id schema processor call) "success" =
        some (JVal.bool b)) ∧
     (getApiKey h = .error m → enrich_findall h findall_id schema processor call =
        exceptEnv m [("findall_id", JVal.str findall_id)]) ∧
     (getApiKey h = .ok key → enrich_findall h findall_id schema processor (.error m) =
        exceptEnv m [("findall_id", JVal.str findall_id)])) ∧
    ((∃ b, envGet (cancel_findall h findall_id call) "success" =
        some (JVal.bool b)) ∧
     (getApiKey h = .error m → cancel_findall h findall_id call =
        exceptEnv m [("findall_id", JVal.str findall_id)]) ∧
     (getApiKey h = .ok key → cancel_findall h findall_id (.error m) =
        exceptEnv m [("findall_id", JVal.str findall_id)])) := by
  refine ⟨fun hs => by simp [getApiKey, hs], ⟨?_, ?_, ?_⟩, ⟨?_, ?_, ?_⟩, ⟨?_, ?_, ?_⟩,
    ⟨?_, ?_, ?_⟩, ⟨?_, ?_, ?_⟩, ⟨?_, ?_, ?_⟩⟩
  · exact (env_fields_of_shape _ "objective" (JVal.str objective)
      (by rw [create_findall_run_def]
          exact apiOp_shape h _ call create_ok_body create_ok_body_shape)
      (by decide) (by decide)).1
  · intro hk
    rw [create_findall_run_def]
    exact apiOp_apikey_err h _ call create_ok_body m hk
  · intro hk
    rw [create_findall_run_def]
    exact apiOp_call_err h _ create_ok_body key m hk
  · exact (env_fields_of_shape _ "findall_id" (JVal.str findall_id)
      (by rw [get_findall_status_def]
          exact apiOp_shape h _ call _ (status_ok_body_shape findall_id))
      (by decide) (by decide)).1
  · intro hk
    rw [get_findall_status_def]
    exact apiOp_apikey_err h _ call _ m hk
  · intro hk
    rw [get_findall_status_def]
    exact apiOp_call_err h _ _ key m hk
  · exact (env_fields_of_shape _ "findall_id" (JVal.str findall_id)
      (by rw [get_findall_results_def]
          exact apiOp_shape h _ call _ (results_ok_body_shape findall_id))
      (by decide) (by decide)).1
  · intro hk
    rw [get_findall_results_def]
    exact apiOp_apikey_err h _ call _ m hk
  · intro hk
    rw [get_findall_results_def]
    exact apiOp_call_err h _ _ key m hk
  · exact (env_fields_of_shape _ "findall_id" (JVal.str findall_id)
      (by rw [extend_findall_def]
          exact apiOp_shape h _ call _ (extend_ok_body_shape findall_id))
      (by decide) (by decide)).1
  · intro hk
    rw [extend_findall_def]
    exact apiOp_apikey_err h _ call _ m hk
  · intro hk
    rw [extend_findall_def]
    exact apiOp_call_err h _ _ key m hk
  · exact (env_fields_of_shape _ "findall_id" (JVal.str findall_id)
      (by rw [enrich_findall_def]
          exact apiOp_shape h _ call _ (enrich_ok_body_shape findall_id))
      (by decide) (by decide)).1
  · intro hk
    rw [enrich_findall_def]
    exact apiOp_apikey_err h _ call _ m hk
  · intro hk
    rw [enrich_findall_def]
    exact apiOp_call_err h _ _ key m hk
  · exact (env_fields_of_shape _ "findall_id" (JVal.str findall_id)
      (by rw [cancel_findall_def]
          exact apiOp_shape h _ call _ (cancel_ok_body_shape findall_id))
      (by decide) (by decide)).1
  · intro hk
    rw [cancel_findall_def]
    exact apiOp_apikey_err h _ call _ m hk
  · intro hk
    rw [cancel_findall_def]
    exact apiOp_call_err h _ _ key m hk

/-- Witness for C9: with the snowflake module absent, `create_findall_run` returns the
`RuntimeError` text as a failure envelope; with it present, a transport exception on
`get_findall_status` is converted to a failure envelope. -/
theorem handler_methods_never_raise_witness :
    create_findall_run ⟨none⟩ "obj" "companies" (JVal.arr []) none none none none
      (Except.error "x") =
      exceptEnv "Snowflake module not initialized" [("objective", JVal.str "obj")] ∧
    get_findall_status handlerOK "j1" (Except.error "boom") =
      exceptEnv "boom" [("findall_id", JVal.str "j1")] :=
  ⟨(handler_methods_never_raise ⟨none⟩ "Snowflake module not initialized" "k" "obj"
      "companies" "j1" "core" (JVal.arr []) (JVal.obj []) none none none none 0
      (Except.error "x")).2.1.2.1 rfl,
   (handler_methods_never_raise handlerOK "boom" "test-key" "obj" "companies" "j1"
      "core" (JVal.arr []) (JVal.obj []) none none none none 0
      (Except.error "boom")).2.2.1.2.2 rfl⟩

/-- Counterexample to C6 as stated: a failure envelope of `get_findall_status`
(`success = false`) contains no `operation` field — the only context field the source
adds is `findall_id` (or `objective` for create). -/
theorem status_failure_lacks_operation_field :
    envGet (get_findall_status handlerOK "j1" (Except.error "boom")) "success" =
      some (JVal.bool false) ∧
    envGet (get_findall_status handlerOK "j1" (Except.error "boom")) "operation" =
      none := by
  constructor <;> rfl

/-- Claim C6 (amended): every operation returns a mapping with a boolean `success`
field; whenever `success` is false the mapping also contains a string `error` field
and a context field identifying the failed call — `findall_id` for every operation
except create, which carries `objective` (no operation-name field is included). -/
theorem envelope_success_error_context (h : FindAllHandler)
    (objective entity_type findall_id processor : String) (mc schema : JVal)
    (g : Option String) (ml : Option Int) (ex md : Option JVal) (aml : Int)
    (call : Except String HttpResponse) :
    ((∃ b, envGet (create_findall_run h objective entity_type mc g ml ex md call)
        "success" = some (JVal.bool b)) ∧
     (envGet (create_findall_run h objective entity_type mc g ml ex md call)
        "success" = some (JVal.bool false) →
      (∃ msg, envGet (create_findall_run h objective entity_type mc g ml ex md call)
        "error" = some (JVal.str msg)) ∧
      envGet (create_findall_run h objective entity_type mc g ml ex md call)
        "objective" = some (JVal.str objective))) ∧
    ((∃ b, envGet (get_findall_status h findall_id call) "success" =
        some (JVal.bool b)) ∧
     (envGet (get_findall_status h findall_id call) "success" =
        some (JVal.bool false) →
      (∃ msg, envGet (get_findall_status h findall_id call) "error" =
        some (JVal.str msg)) ∧
      envGet (get_findall_status h findall_id call) "findall_id" =
        some (JVal.str findall_id))) ∧
    ((∃ b, envGet (get_findall_results h findall_id call) "success" =
        some (JVal.bool b)) ∧
     (envGet (get_findall_results h findall_id call) "success" =
        some (JVal.bool false) →
      (∃ msg, envGet (get_findall_results h findall_id call) "error" =
        some (JVal.str msg)) ∧
      envGet (get_findall_results h findall_id call) "findall_id" =
        some (JVal.str findall_id))) ∧
    ((∃ b, envGet (extend_findall h findall_id aml call) "success" =
        some (JVal.bool b)) ∧
     (envGet (extend_findall h findall_id aml call) "success" =
        some (JVal.bool false) →
      (∃ msg, envGet (extend_findall h findall_id aml call) "error" =
        some (JVal.str msg)) ∧
      envGet (extend_findall h findall_id aml call) "findall_id" =
        some (JVal.str findall_id))) ∧
    ((∃ b, envGet (enrich_findall h findall_id schema processor call) "success" =
        some (JVal.bool b)) ∧
     (envGet (enrich_findall h findall_id schema processor call) "success" =
        some (JVal.bool false) →
      (∃ msg, envGet (enrich_findall h findall_id schema processor call) "error" =
        some (JVal.str msg)) ∧
      envGet (enrich_findall h findall_id schema processor call) "findall_id" =
        some (JVal.str findall_id))) ∧
    ((∃ b, envGet (cancel_findall h findall_id call) "success" =
        some (JVal.bool b)) ∧
     (envGet (cancel_findall h findall_id call) "success" =
        some (JVal.bool false) →
      (∃ msg, envGet (cancel_findall h findall_id call) "error" =
        some (JVal.str msg)) ∧
      envGet (cancel_findall h findall_id call) "findall_id" =
        some (JVal.str findall_id))) := by
  have hc := env_fields_of_shape
    (create_findall_run h objective entity_type mc g ml ex md call) "objective"
    (JVal.str objective)
    (by rw [create_findall_run_def]
        exact apiOp_shape h _ call create_ok_body create_ok_body_shape)
    (by decide) (by decide)
  have hs := env_fields_of_shape (get_findall_status h findall_id call) "findall_id"
    (JVal.str findall_id)
    (by rw [get_findall_status_def]
        exact apiOp_shape h _ call _ (status_ok_body_shape findall_id))
    (by decide) (by decide)
  have hr := env_fields_of_shape (get_findall_results h findall_id call) "findall_id"
    (JVal.str findall_id)
    (by rw [get_findall_results_def]
        exact apiOp_shape h _ call _ (results_ok_body_shape findall_id))
    (by decide) (by decide)
  have hx := env_fields_of_shape (extend_findall h findall_id aml call) "findall_id"
    (JVal.str findall_id)
    (by rw [extend_findall_def]
        exact apiOp_shape h _ call _ (extend_ok_body_shape findall_id))
    (by decide) (by decide)
  have he := env_fields_of_shape
    (enrich_findall h findall_id schema processor call) "findall_id"
    (JVal.str findall_id)
    (by rw [enrich_findall_def]
        exact apiOp_shape h _ call _ (enrich_ok_body_shape findall_id))
    (by decide) (by decide)
  have hk := env_fields_of_shape (cancel_findall h findall_id call) "findall_id"
    (JVal.str findall_id)
    (by rw [cancel_findall_def]
        exact apiOp_shape h _ call _ (cancel_ok_body_shape findall_id))
    (by decide) (by decide)
  exact ⟨⟨hc.1, fun hf => ⟨hc.2.1 hf, hc.2.2 hf⟩⟩,
         ⟨hs.1, fun hf => ⟨hs.2.1 hf, hs.2.2 hf⟩⟩,
         ⟨hr.1, fun hf => ⟨hr.2.1 hf, hr.2.2 hf⟩⟩,
         ⟨hx.1, fun hf => ⟨hx.2.1 hf, hx.2.2 hf⟩⟩,
         ⟨he.1, fun hf => ⟨he.2.1 hf, he.2.2 hf⟩⟩,
         ⟨hk.1, fun hf => ⟨hk.2.1 hf, hk.2.2 hf⟩⟩⟩

/-- Witness for C6 (amended): a failing `get_findall_status` call carries `error` and
`findall_id`; the create failure envelope carries `error` and `objective`. -/
theorem envelope_success_error_context_witness :
    envGet (get_findall_status handlerOK "j1" (Except.error "boom")) "error" =
      some (JVal.str "boom") ∧
    envGet (get_findall_status handlerOK "j1" (Except.error "boom")) "findall_id" =
      some (JVal.str "j1") ∧
    envGet (create_findall_run ⟨none⟩ "obj" "companies" (JVal.arr []) none none none
      none (Except.error "x")) "objective" = some (JVal.str "obj") := by
  have hs := (envelope_success_error_context handlerOK "obj" "companies" "j1" "core"
    (JVal.arr []) (JVal.obj []) none none none none 0 (Except.error "boom")).2.1.2
    (by rfl)
  have hcr := (envelope_success_error_context ⟨none⟩ "obj" "companies" "j1" "core"
    (JVal.arr []) (JVal.obj []) none none none none 0 (Except.error "x")).1.2
    (by rfl)
  obtain ⟨⟨msg, hmsg⟩, hid⟩ := hs
  refine ⟨?_, hid, hcr.2⟩
  have : msg = "boom" := by
    have hx : envGet (get_findall_status handlerOK "j1" (Except.error "boom"))
        "error" = some (JVal.str "boom") := rfl
    rw [hmsg] at hx
    cases hx
    rfl
  rw [this] at hmsg
  exact hmsg

/-- Counterexample to C3 as stated: a 2xx response other than 200 (here 201, with no
transport exception and a well-formed body) is mapped to a failure envelope — the
source tests `response.status_code == 200`, not 2xx membership. -/
theorem status_201_maps_to_failure :
    get_findall_status handlerOK "j1" (Except.ok ⟨201, "Created", .ok (JVal.obj [])⟩) =
      exceptEnv (httpErrMsg 201 "Created") [("findall_id", JVal.str "j1")] ∧
    envGet (get_findall_status handlerOK "j1"
      (Except.ok ⟨201, "Created", .ok (JVal.obj [])⟩)) "success" =
      some (JVal.bool false) := by
  constructor <;> rfl

/-- Claim C3 (amended): every operation returns a failure envelope — `success = false`
with `error` carrying the exception message, or the raw status code and response body —
exactly when the HTTP status differs from 200 or a transport exception occurs, and a
success envelope for a 200 response with a parseable, well-shaped body; in particular
every status ≥ 400 maps to failure, but so does every 2xx status other than 200. -/
theorem operations_fail_iff_not_200 (h : FindAllHandler) (key m : String)
    (hkey : getApiKey h = .ok key)
    (objective entity_type findall_id processor : String) (mc schema : JVal)
    (g : Option String) (ml : Option Int) (ex md : Option JVal) (aml : Int)
    (code : Nat) (text : String) (b : Except String JVal) (hcode : code ≠ 200)
    (fs ss rs rss : List (String × JVal)) (cs : List JVal)
    (hss : lookupD fs "status" (JVal.obj []) = JVal.obj ss)
    (hrun : lookupD fs "run" (JVal.obj []) = JVal.obj rs)
    (hrs : lookupD rs "status" (JVal.obj []) = JVal.obj rss)
    (hcs : lookupD fs "candidates" (JVal.arr []) = JVal.arr cs)
    (hobj : ∀ c ∈ cs, c.isObj = true) :
    (create_findall_run h objective entity_type mc g ml ex md (.error m) =
       exceptEnv m [("objective", JVal.str objective)] ∧
     create_findall_run h objective entity_type mc g ml ex md (.ok ⟨code, text, b⟩) =
       exceptEnv (httpErrMsg code text) [("objective", JVal.str objective)] ∧
     envGet (create_findall_run h objective entity_type mc g ml ex md
       (.ok ⟨200, text, .ok (JVal.obj fs)⟩)) "success" = some (JVal.bool true)) ∧
    (get_findall_status h findall_id (.error m) =
       exceptEnv m [("findall_id", JVal.str findall_id)] ∧
     get_findall_status h findall_id (.ok ⟨code, text, b⟩) =
       exceptEnv (httpErrMsg code text) [("findall_id", JVal.str findall_id)] ∧
     envGet (get_findall_status h findall_id
       (.ok ⟨200, text, .ok (JVal.obj fs)⟩)) "success" = some (JVal.bool true)) ∧
    (get_findall_results h findall_id (.error m) =
       exceptEnv m [("findall_id", JVal.str findall_id)] ∧
     get_findall_results h findall_id (.ok ⟨code, text, b⟩) =
       exceptEnv (httpErrMsg code text) [("findall_id", JVal.str findall_id)] ∧
     envGet (get_findall_results h findall_id
       (.ok ⟨200, text, .ok (JVal.obj fs)⟩)) "success" = some (JVal.bool true)) ∧
    (extend_findall h findall_id aml (.error m) =
       exceptEnv m [("findall_id", JVal.str findall_id)] ∧
     extend_findall h findall_id aml (.ok ⟨code, text, b⟩) =
       exceptEnv (httpErrMsg code text) [("findall_id", JVal.str findall_id)] ∧
     envGet (extend_findall h findall_id aml
       (.ok ⟨200, text, .ok (JVal.obj fs)⟩)) "success" = some (JVal.bool true)) ∧
    (enrich_findall h findall_id schema processor (.error m) =
       exceptEnv m [("findall_id", JVal.str findall_id)] ∧
     enrich_findall h findall_id schema processor (.ok ⟨code, text, b⟩) =
       exceptEnv (httpErrMsg code text) [("findall_id", JVal.str findall_id)] ∧
     envGet (enrich_findall h findall_id schema processor
       (.ok ⟨200, text, .ok (JVal.obj fs)⟩)) "success" = some (JVal.bool true)) ∧
    (cancel_findall h findall_id (.error m) =
       exceptEnv m [("findall_id", JVal.str findall_id)] ∧
     cancel_findall h findall_id (.ok ⟨code, text, b⟩) =
       exceptEnv (httpErrMsg code text) [("findall_id", JVal.str findall_id)] ∧
     envGet (cancel_findall h findall_id
       (.ok ⟨200, text, .ok (JVal.obj fs)⟩)) "success" = some (JVal.bool true)) := by
  refine ⟨⟨?_, ?_, ?_⟩, ⟨?_, ?_, ?_⟩, ⟨?_, ?_, ?_⟩, ⟨?_, ?_, ?_⟩, ⟨?_, ?_, ?_⟩,
    ⟨?_, ?_, ?_⟩⟩
  · exact (create_findall_run_def h _ _ _ _ _ _ _ _).trans
      (apiOp_call_err h _ create_ok_body key m hkey)
  · exact (create_findall_run_def h _ _ _ _ _ _ _ _).trans
      (apiOp_non200 h _ create_ok_body key code text b hkey hcode)
  · rw [create_findall_run_def, apiOp_200 h _ create_ok_body key text _ hkey,
      create_ok_eval fs ss hss]
    simp [pyCatch, envGet, List.find?]
  · exact (get_findall_status_def h _ _).trans (apiOp_call_err h _ _ key m hkey)
  · exact (get_findall_status_def h _ _).trans
      (apiOp_non200 h _ _ key code text b hkey hcode)
  · rw [get_findall_status_def, apiOp_200 h _ _ key text _ hkey,
      status_ok_eval findall_id fs ss hss]
    simp [pyCatch, envGet, List.find?]
  · exact (get_findall_results_def h _ _).trans (apiOp_call_err h _ _ key m hkey)
  · exact (get_findall_results_def h _ _).trans
      (apiOp_non200 h _ _ key code text b hkey hcode)
  · rw [get_findall_results_def, apiOp_200 h _ _ key text _ hkey,
      results_ok_eval findall_id fs rs rss cs hrun hrs hcs hobj]
    simp [pyCatch, envGet, List.find?]
  · exact (extend_findall_def h _ _ _).trans (apiOp_call_err h _ _ key m hkey)
  · exact (extend_findall_def h _ _ _).trans
      (apiOp_non200 h _ _ key code text b hkey hcode)
  · rw [extend_findall_def, apiOp_200 h _ _ key text _ hkey,
      extend_ok_eval findall_id fs]
    simp [pyCatch, envGet, List.find?]
  · exact (enrich_findall_def h _ _ _ _).trans (apiOp_call_err h _ _ key m hkey)
  · exact (enrich_findall_def h _ _ _ _).trans
      (apiOp_non200 h _ _ key code text b hkey hcode)
  · rw [enrich_findall_def, apiOp_200 h _ _ key text _ hkey,
      enrich_ok_eval findall_id fs]
    simp [pyCatch, envGet, List.find?]
  · exact (cancel_findall_def h _ _).trans (apiOp_call_err h _ _ key m hkey)
  · exact (cancel_findall_def h _ _).trans
      (apiOp_non200 h _ _ key code text b hkey hcode)
  · rw [cancel_findall_def, apiOp_200 h _ _ key text _ hkey,
      cancel_ok_eval findall_id fs ss hss]
    simp [pyCatch, envGet, List.find?]

/-- Witness for C3 (amended): at status 404 `get_findall_status` returns the
`HTTP 404` failure envelope; a transport exception becomes a failure envelope; a 200
response with an empty-object body yields a success envelope. -/
theorem operations_fail_iff_not_200_witness :
    get_findall_status handlerOK "j1" (.ok ⟨404, "not found", .ok (JVal.obj [])⟩) =
      exceptEnv (httpErrMsg 404 "not found") [("findall_id", JVal.str "j1")] ∧
    get_findall_status handlerOK "j1" (.error "connection refused") =
      exceptEnv "connection refused" [("findall_id", JVal.str "j1")] ∧
    envGet (get_findall_status handlerOK "j1" (.ok ⟨200, "not found",
      .ok (JVal.obj [])⟩)) "success" = some (JVal.bool true) := by
  have ht := operations_fail_iff_not_200 handlerOK "test-key" "connection refused" rfl
    "obj" "companies" "j1" "core" (JVal.arr []) (JVal.obj []) none none none none 0
    404 "not found" (.ok (JVal.obj [])) (by decide) [] [] [] [] []
    rfl rfl rfl rfl (by simp)
  exact ⟨ht.2.1.2.1, ht.2.1.1, ht.2.1.2.2⟩

/-- Counterexample to C7 as stated: a transport exception whose message happens to be
`"Timeout after 2 seconds"` makes `get_findall_status` return an envelope identical to
the timeout envelope of `wait_for_completion` with `max_wait = 2` — the timeout
condition is not distinguishable from a transport failure from the envelope alone. -/
theorem timeout_env_collides_with_transport_failure :
    get_findall_status handlerOK "j1" (Except.error "Timeout after 2 seconds") =
      (wait_for_completion handlerOK "j1" (fun _ => activeResp) doneResp 1 2).1 := by
  have ht : (wait_for_completion handlerOK "j1" (fun _ => activeResp) doneResp 1 2).1 =
      timeoutEnv 2 "j1" :=
    waitBody_timeout handlerOK "j1" (fun _ => activeResp) doneResp 1 2 (by decide)
      3 0 (by omega) (fun i _ _ => ⟨rfl, rfl⟩)
  rw [ht]
  rfl

/-- Claim C7 (amended): the timeout envelope is distinguishable from every
remote-rejection envelope — their `error` texts begin `"HTTP "` while the timeout's
begins `"Timeout after "` — but not from transport-failure envelopes in general, whose
`error` is an arbitrary exception message (see the collision counterexample). -/
theorem timeout_env_differs_from_remote_rejection (mw code : Nat)
    (id id2 objective text : String) :
    timeoutEnv mw id ≠
      exceptEnv (httpErrMsg code text) [("findall_id", JVal.str id2)] ∧
    timeoutEnv mw id ≠
      exceptEnv (httpErrMsg code text) [("objective", JVal.str objective)] := by
  constructor <;> intro heq <;>
    simp only [timeoutEnv, exceptEnv, httpErrMsg, List.cons.injEq, Prod.mk.injEq,
      JVal.str.injEq] at heq
  · have hd := congrArg String.data heq.2.1.2
    simp [String.data_append] at hd
  · have hd := congrArg String.data heq.2.1.2
    simp [String.data_append] at hd

/-- Witness for C7 (amended): the concrete `max_wait = 2` timeout envelope differs
from the concrete `HTTP 404` rejection envelope. -/
theorem timeout_env_differs_from_remote_rejection_witness :
    timeoutEnv 2 "j1" ≠
      exceptEnv (httpErrMsg 404 "not found") [("findall_id", JVal.str "j1")] :=
  (timeout_env_differs_from_remote_rejection 2 404 "j1" "j1" "obj" "not found").1

/-- Counterexample to C8 as stated: a malformed `output_schema` argument that is not
valid JSON (here the string `"\x7b"`) makes the UDF entry point raise
`json.JSONDecodeError` from the unguarded `json.loads`, crashing the caller instead of
returning any envelope. -/
theorem enrich_udf_raises_on_unparseable_schema :
    enrich_findall_udf "j1"
      (Sum.inl ("\x7b",
        Except.error
          "Expecting property name enclosed in double quotes: line 1 column 2 (char 1)"))
      "core" handlerOK (Except.ok respStub) =
      Except.error
        "Expecting property name enclosed in double quotes: line 1 column 2 (char 1)" :=
  rfl

/-- Claim C8 (amended): for every `output_schema` input that the entry point can parse
(a JSON-parseable string or a non-string value) — in particular any mapping that is
not a valid schema — `enrich` returns an envelope without raising, and when the remote
service rejects the request (status ≥ 400) that envelope is the remote-rejection
failure (`error = "HTTP ..."`), not a transport failure; only a string input that is
not valid JSON escapes as an exception from the unguarded `json.loads`. -/
theorem enrich_udf_parseable_never_raises (findall_id s processor : String)
    (schema : JVal) (h : FindAllHandler) (key : String)
    (hkey : getApiKey h = .ok key) (code : Nat) (text : String)
    (b : Except String JVal) (hcode : 400 ≤ code) :
    (∀ call, enrich_findall_udf findall_id (.inl (s, .ok schema)) processor h call =
      .ok (enrich_findall h findall_id schema processor call)) ∧
    (∀ v call, enrich_findall_udf findall_id (.inr v) processor h call =
      .ok (enrich_findall h findall_id v processor call)) ∧
    enrich_findall_udf findall_id (.inl (s, .ok schema)) processor h
      (.ok ⟨code, text, b⟩) =
      .ok (exceptEnv (httpErrMsg code text) [("findall_id", JVal.str findall_id)]) := by
  refine ⟨fun call => rfl, fun v call => rfl, ?_⟩
  have hne : code ≠ 200 := by omega
  show Except.ok (enrich_findall h findall_id schema processor (.ok ⟨code, text, b⟩)) =
    _
  rw [enrich_findall_def, apiOp_non200 h _ _ key code text b hkey hne]

/-- Witness for C8 (amended): a schema mapping the service rejects with HTTP 422 comes
back as a remote-rejection failure envelope, with no exception raised. -/
theorem enrich_udf_parseable_never_raises_witness :
    enrich_findall_udf "j1"
      (Sum.inl ("\x7b\"ceo\": \"string\"\x7d",
        .ok (JVal.obj [("ceo", JVal.str "string")]))) "core" handlerOK
      (.ok ⟨422, "Unprocessable Entity", .ok (JVal.obj [])⟩) =
      .ok (exceptEnv (httpErrMsg 422 "Unprocessable Entity")
        [("findall_id", JVal.str "j1")]) :=
  (enrich_udf_parseable_never_raises "j1" "\x7b\"ceo\": \"string\"\x7d" "core"
    (JVal.obj [("ceo", JVal.str "string")]) handlerOK "test-key" rfl 422
    "Unprocessable Entity" (.ok (JVal.obj [])) (by decide)).2.2

/-- Witness for C5: on a concrete run that completes at the second poll, the trace
contains no cancel request. -/
theorem wait_for_completion_trace_only_polls_witness :
    ApiCall.cancel "j1" ∉
      (wait_for_completion handlerOK "j1" flipCalls doneResp 1 3).2 :=
  (wait_for_completion_trace_only_polls handlerOK "j1" flipCalls doneResp 1 3).2.1
